import Mathlib

/-!
Shallow embedding of the data-fetch retry/backoff engine of
`src/core/data_fetcher.py` (together with `bounded_sleep` from
`src/utils/utils.py`), and proofs of the specified properties.

Machine conventions used throughout:
* HTTP statuses are `Nat`.
* Durations (backoff base, cap, Retry-After values, computed waits) are
  exact rationals `ℚ`; the code's formulas (`min`, `^`, `*`) are transcribed
  verbatim over `ℚ`.
* The network is an oracle passed in explicitly: a function from attempt
  index to what `requests.request` does on that attempt (raise a transport
  error, or return a response), resp. a list of pages for the search
  endpoint, resp. a function from (ids-batch, fields) to a data list for
  the detail endpoint.
* Python falsiness and `lst[:k]` slice semantics are modelled explicitly
  where the code relies on them.
-/

namespace DataFetcher

/-- Default of env var `BACKOFF_BASE` (`0.8` in the source). -/
def BACKOFF_BASE : ℚ := 4 / 5

/-- Default of env var `BACKOFF_CAP` (`8` in the source). -/
def BACKOFF_CAP : ℚ := 8

/-- Default of env var `MAX_RETRIES` (`4` in the source). -/
def MAX_RETRIES : Nat := 4

/-- What the `Retry-After` header of a response amounts to after the code's
`resp.headers.get("Retry-After")` / truthiness test / `float(retry_after)`
parse: absent (or the falsy empty string), present but not parseable as a
number (the `ValueError` branch), or parseable with value `q`. -/
inductive HdrParse where
  | absent : HdrParse
  | unparsable : HdrParse
  | value (q : ℚ) : HdrParse
  deriving DecidableEq, Repr

/-- An HTTP response as far as `_request_with_backoff` inspects it:
status code, `Retry-After` header, body. -/
structure Response where
  status : Nat
  retryAfter : HdrParse
  body : String
  deriving DecidableEq, Repr

/-- What one call of `requests.request` does on a given attempt: raise a
transport-level `RequestException`, or return a response. -/
inductive AttemptOutcome where
  | transportError (msg : String) : AttemptOutcome
  | response (r : Response) : AttemptOutcome
  deriving DecidableEq, Repr

/-- The errors `_request_with_backoff` can surface: an
`requests.HTTPError` carrying a status (from `raise_for_status`), a
transport-level `RequestException`, or the
`RuntimeError("Unreachable: backoff loop exited unexpectedly")` sentinel
after the loop. -/
inductive ReqError where
  | httpError (status : Nat) (body : String) : ReqError
  | transport (msg : String) : ReqError
  | runtimeUnreachable : ReqError
  deriving DecidableEq, Repr

/-- `requests.Response.raise_for_status` raises exactly for 4xx/5xx. -/
def isErrorStatus (s : Nat) : Bool := 400 ≤ s && s < 600

/-- The wait computed by the 429/503 branch of `_request_with_backoff`:
`min(float(retry_after), BACKOFF_CAP)` when the header parses, otherwise
(no header, or `ValueError`) `min((BACKOFF_BASE ** attempt) * 2, BACKOFF_CAP)`. -/
def throttleWait (base cap : ℚ) (hdr : HdrParse) (attempt : Nat) : ℚ :=
  match hdr with
  | .value q => min q cap
  | .unparsable => min ((base ^ attempt) * 2) cap
  | .absent => min ((base ^ attempt) * 2) cap

/-- The wait computed by the `except requests.RequestException` branch:
`min((BACKOFF_BASE ** (attempt + 1)) * 2, BACKOFF_CAP)`. -/
def exceptWait (base cap : ℚ) (attempt : Nat) : ℚ :=
  min ((base ^ (attempt + 1)) * 2) cap

/-- Result of one `_request_with_backoff` call: outcome, the waits passed
to `bounded_sleep` in order, and how many HTTP requests were issued. -/
structure RunResult where
  result : Except ReqError Response
  sleeps : List ℚ
  attemptsMade : Nat
  deriving Repr

/-- The body of `for attempt in range(MAX_RETRIES + 1): ...` of
`_request_with_backoff`, transcribed once per remaining iteration.
`fuel` is the number of loop iterations still permitted (initially
`maxRetries + 1`); `attempt` is the current loop index. When the fuel runs
out the loop has been exited without returning, which is the
`raise RuntimeError("Unreachable: ...")` line after the loop.

A 4xx/5xx status reaches `resp.raise_for_status()`, whose `HTTPError` is a
`requests.RequestException` and is therefore caught by the `except` clause
of the same iteration: it is retried like a transport failure, and
re-raised only when `attempt >= MAX_RETRIES`. -/
def backoffGo (maxRetries : Nat) (base cap : ℚ) (outcomes : Nat → AttemptOutcome) :
    Nat → Nat → RunResult
  | _, 0 => ⟨.error .runtimeUnreachable, [], 0⟩
  | attempt, fuel + 1 =>
    match outcomes attempt with
    | .transportError msg =>
      if maxRetries ≤ attempt then
        ⟨.error (.transport msg), [], 1⟩
      else
        let w := exceptWait base cap attempt
        let rest := backoffGo maxRetries base cap outcomes (attempt + 1) fuel
        ⟨rest.result, w :: rest.sleeps, rest.attemptsMade + 1⟩
    | .response r =>
      if r.status = 429 ∨ r.status = 503 then
        let w := throttleWait base cap r.retryAfter attempt
        let rest := backoffGo maxRetries base cap outcomes (attempt + 1) fuel
        ⟨rest.result, w :: rest.sleeps, rest.attemptsMade + 1⟩
      else if isErrorStatus r.status then
        if maxRetries ≤ attempt then
          ⟨.error (.httpError r.status r.body), [], 1⟩
        else
          let w := exceptWait base cap attempt
          let rest := backoffGo maxRetries base cap outcomes (attempt + 1) fuel
          ⟨rest.result, w :: rest.sleeps, rest.attemptsMade + 1⟩
      else
        ⟨.ok r, [], 1⟩

/-- `_request_with_backoff`: run the loop from `attempt = 0` with
`MAX_RETRIES + 1` iterations permitted. -/
def requestWithBackoff (maxRetries : Nat) (base cap : ℚ)
    (outcomes : Nat → AttemptOutcome) : RunResult :=
  backoffGo maxRetries base cap outcomes 0 (maxRetries + 1)

/-! ## Pagination (`_search_ids`) -/

/-- One element of a search response's `data` list, as far as `_search_ids`
inspects it: `str(item["id"])` when `"id" in item`, and `none` when the
element lacks an `"id"` key. -/
structure SearchItem where
  id : Option String
  deriving DecidableEq, Repr

/-- Python `lst[:k]` for an `int` `k`: a nonnegative `k` keeps the first
`k` elements (clamped at the length); a negative `k` drops the last `-k`
elements (clamped at the empty list). -/
def pySliceTo (k : Int) (l : List α) : List α :=
  if 0 ≤ k then l.take k.toNat else l.take (l.length - (-k).toNat)

/-- `per_page = min(max(1, max_items), 100)` from `_search_ids`. -/
def per_page (maxItems : Int) : Int := min (max 1 maxItems) 100

/-- The `while len(ids) < max_items` loop of `_search_ids`. `rest` is the
sequence of `data` lists the `/search` endpoint returns for pages
`page, page+1, ...` (a page past the end of the list is an empty `data`
list, the API's end-of-results); `acc` is `ids` so far and `reqs` counts
the HTTP requests issued. Each iteration requests one page, breaks on an
empty `data` list, and otherwise appends `str(item["id"])` for the items
that have an `"id"` key. -/
def searchGo (maxItems : Int) : List (List SearchItem) → List String → Nat →
    List String × Nat
  | [], acc, reqs =>
    if (acc.length : Int) < maxItems then (acc, reqs + 1) else (acc, reqs)
  | data :: rest', acc, reqs =>
    if (acc.length : Int) < maxItems then
      if data.isEmpty then (acc, reqs + 1)
      else searchGo maxItems rest' (acc ++ data.filterMap SearchItem.id) (reqs + 1)
    else (acc, reqs)

/-- `_search_ids`, instrumented with the request count. The network is the
oracle `oracle term limit`, giving the successive pages' `data` lists for
query parameters `q = term` and `limit`; the loop starts at page 1 with
`ids = []`. -/
def searchIdsRun (oracle : String → Int → List (List SearchItem)) (term : String)
    (maxItems : Int) : List String × Nat :=
  searchGo maxItems (oracle term (per_page maxItems)) [] 0

/-- The ids `_search_ids` returns: the accumulated ids truncated by
`ids[:max_items]`. -/
def searchIds (oracle : String → Int → List (List SearchItem)) (term : String)
    (maxItems : Int) : List String :=
  pySliceTo maxItems (searchIdsRun oracle term maxItems).1

/-- How many page requests `_search_ids` issues. -/
def searchRequests (oracle : String → Int → List (List SearchItem)) (term : String)
    (maxItems : Int) : Nat :=
  (searchIdsRun oracle term maxItems).2

/-! ## Chunking (`_chunk`) and batch detail fetching (`_fetch_details`) -/

/-- Python `range(start, stop, step)` for a nonnegative step (empty when
`step = 0`, where Python would raise `ValueError`; `_chunk` only uses
positive steps). -/
def pyRange (start stop step : Nat) : List Nat :=
  if _h : 0 < step ∧ start < stop then start :: pyRange (start + step) stop step
  else []
termination_by stop - start
decreasing_by omega

/-- `_chunk(lst, size) = [lst[i:i + size] for i in range(0, len(lst), size)]`. -/
def _chunk (lst : List α) (size : Nat) : List (List α) :=
  (pyRange 0 lst.length size).map (fun i => (lst.drop i).take size)

/-- The default fields of `_fetch_details` when `fields` is falsy:
`"id,title,artist_title,date_display"`. -/
def defaultFields : List String := ["id", "title", "artist_title", "date_display"]

/-- The `for batch in _chunk(ids, 50)` loop of `_fetch_details`: one
request per batch (the oracle `api batch fields` is the response's `data`
list for query parameters `ids = ",".join(batch)` and the given fields),
extending `results` in batch order. Returns the results and the request
count. -/
def fetchDetailsGo (api : List String → List String → List α)
    (fields_eff : List String) : List (List String) → List α × Nat
  | [] => ([], 0)
  | batch :: batches =>
    let rest := fetchDetailsGo api fields_eff batches
    (api batch fields_eff ++ rest.1, rest.2 + 1)

/-- `_fetch_details`, instrumented with the request count: empty `ids`
short-circuits to `[]` with no request; otherwise the effective field list
is `fields` when non-empty, else the default four fields (the code joins
it to the comma-separated `fields_csv`), and the ids are processed in
chunks of 50. -/
def fetchDetailsRun (api : List String → List String → List α)
    (ids fields : List String) : List α × Nat :=
  if ids.isEmpty then ([], 0)
  else
    let fields_eff := if fields.isEmpty then defaultFields else fields
    fetchDetailsGo api fields_eff (_chunk ids 50)

/-! ## Report assembly (`fetch_report_data`) -/

/-- The input dict of `fetch_report_data`: each key may be absent
(`report.get(k)` is `None`) or present with a value. A present value may
still be falsy (`""`, `[]`, `0`), which the code's `or` treats like an
absent one. -/
structure ReportDict where
  name : Option String := none
  search : Option String := none
  fields : Option (List String) := none
  max_items : Option Int := none

/-- Python `v or d` for an optional string: `d` when the key is absent or
the value is the falsy `""`. -/
def orDefaultStr (v : Option String) (d : String) : String :=
  match v with
  | none => d
  | some s => if s = "" then d else s

/-- Python `v or d` for an optional list: `d` when the key is absent or
the value is the falsy `[]`. -/
def orDefaultList (v : Option (List String)) (d : List String) : List String :=
  match v with
  | none => d
  | some l => if l.isEmpty then d else l

/-- Python `int(v or d)` for an optional integer: `d` when the key is
absent or the value is the falsy `0`. -/
def orDefaultInt (v : Option Int) (d : Int) : Int :=
  match v with
  | none => d
  | some i => if i = 0 then d else i

/-- The `"report"` sub-dict echoed in the result of `fetch_report_data`. -/
structure ReportSpecEff where
  name : String
  search : String
  fields : List String
  max_items : Int
  deriving DecidableEq, Repr

/-- The dict `fetch_report_data` returns: the echoed effective spec, the
fetched items, and `count = len(items)`. -/
structure ReportData (α : Type) where
  report : ReportSpecEff
  items : List α
  count : Nat
  deriving Repr

/-- `fetch_report_data`: fill defaults with `or`, search ids, fetch
details, and wrap. -/
def fetch_report_data (oracle : String → Int → List (List SearchItem))
    (api : List String → List String → List α) (report : ReportDict) :
    ReportData α :=
  let name := orDefaultStr report.name "report"
  let search := orDefaultStr report.search ""
  let fields := orDefaultList report.fields defaultFields
  let max_items := orDefaultInt report.max_items 25
  let ids := searchIds oracle search max_items
  let items := (fetchDetailsRun api ids fields).1
  { report := ⟨name, search, fields, max_items⟩, items := items, count := items.length }

end DataFetcher

namespace Utils

/-- The duration argument of `bounded_sleep`, a Python float as far as the
function distinguishes: NaN or a numeric value. -/
inductive PyFloat where
  | nan : PyFloat
  | val (q : ℚ) : PyFloat
  deriving DecidableEq, Repr

/-- Python `max(0.0, seconds)`: yields `seconds` when `seconds > 0.0` and
`0.0` otherwise — every comparison with NaN is false, so NaN is clamped to
`0.0` just like a negative duration. -/
def pyMaxZero : PyFloat → ℚ
  | .nan => 0
  | .val q => if 0 < q then q else 0

/-- `bounded_sleep` from `src/utils/utils.py`: `time.sleep(max(0.0, seconds))`
inside `try: ... except Exception: pass`. `sleepImpl` is the underlying
`time.sleep`, which may itself raise. -/
def bounded_sleep (sleepImpl : ℚ → Except String Unit) (seconds : PyFloat) :
    Except String Unit :=
  match sleepImpl (pyMaxZero seconds) with
  | .ok _ => .ok ()
  | .error _ => .ok ()

end Utils

/-! ## Helper lemmas -/

namespace DataFetcher

/-- `ceilDiv a b = ⌈a / b⌉` on naturals. -/
def ceilDiv (a b : Nat) : Nat := (a + b - 1) / b

theorem ceilDiv_zero_left (b : Nat) : ceilDiv 0 b = 0 := by
  unfold ceilDiv
  rcases Nat.eq_zero_or_pos b with hb | hb
  · simp [hb]
  · exact Nat.div_eq_of_lt (by omega)

theorem ceilDiv_pos (a b : Nat) (ha : 0 < a) (hb : 0 < b) : 0 < ceilDiv a b := by
  unfold ceilDiv
  apply Nat.div_pos (by omega) hb

theorem ceilDiv_sub_rec (a b : Nat) (ha : 0 < a) (hb : 0 < b) :
    ceilDiv a b = ceilDiv (a - b) b + 1 := by
  unfold ceilDiv
  rcases Nat.lt_or_ge b a with h | h
  · have h1 : a + b - 1 = (a - b) + b - 1 + b := by omega
    rw [h1, Nat.add_div_right _ hb]
  · have h1 : a - b = 0 := by omega
    rw [h1]
    have h2 : (0 + b - 1) / b = 0 := Nat.div_eq_of_lt (by omega)
    rw [h2]
    have h3 : a + b - 1 = (a - 1) + 1 * b := by omega
    rw [h3, Nat.add_mul_div_right _ _ hb, Nat.div_eq_of_lt (by omega)]

theorem pyRange_eq_cons (start stop step : Nat) (h : 0 < step ∧ start < stop) :
    pyRange start stop step = start :: pyRange (start + step) stop step := by
  rw [pyRange]
  exact dif_pos h

theorem pyRange_eq_nil (start stop step : Nat) (h : ¬(0 < step ∧ start < stop)) :
    pyRange start stop step = [] := by
  rw [pyRange]
  exact dif_neg h

theorem pyRange_shift (a d b st : Nat) :
    pyRange (a + d) b st = (pyRange a (b - d) st).map (· + d) := by
  by_cases h : 0 < st ∧ a + d < b
  · have h' : 0 < st ∧ a < b - d := by omega
    rw [pyRange_eq_cons _ _ _ h, pyRange_eq_cons _ _ _ h']
    simp only [List.map_cons]
    have hrec := pyRange_shift (a + st) d b st
    have harg : a + st + d = a + d + st := by omega
    rw [harg] at hrec
    rw [hrec]
  · have h' : ¬(0 < st ∧ a < b - d) := by omega
    rw [pyRange_eq_nil _ _ _ h, pyRange_eq_nil _ _ _ h']
    simp
termination_by b - a
decreasing_by omega

theorem _chunk_nil (size : Nat) : _chunk ([] : List α) size = [] := by
  unfold _chunk
  rw [pyRange_eq_nil _ _ _ (by simp)]
  simp

theorem _chunk_cons (lst : List α) (size : Nat) (h1 : 0 < size) (h2 : lst ≠ []) :
    _chunk lst size = lst.take size :: _chunk (lst.drop size) size := by
  unfold _chunk
  have hlen : 0 < lst.length := List.length_pos.mpr h2
  rw [pyRange_eq_cons _ _ _ ⟨h1, by omega⟩]
  simp only [List.map_cons, List.drop_zero, Nat.zero_add]
  congr 1
  have hshift : pyRange (0 + size) lst.length size =
      (pyRange 0 (lst.length - size) size).map (· + size) := pyRange_shift 0 size lst.length size
  simp only [Nat.zero_add] at hshift
  rw [hshift, List.map_map, List.length_drop]
  apply List.map_congr_left
  intro i _
  simp only [Function.comp_apply]
  rw [List.drop_drop, Nat.add_comm size i]

theorem _chunk_flatten (lst : List α) (size : Nat) (h : 1 ≤ size) :
    (_chunk lst size).flatten = lst := by
  by_cases h2 : lst = []
  · subst h2
    rw [_chunk_nil]
    rfl
  · rw [_chunk_cons lst size h h2]
    simp only [List.flatten_cons]
    rw [_chunk_flatten (lst.drop size) size h, List.take_append_drop]
termination_by lst.length
decreasing_by
  rw [List.length_drop]
  have : 0 < lst.length := List.length_pos.mpr h2
  omega

theorem _chunk_mem_length (lst : List α) (size : Nat) (h : 1 ≤ size) :
    ∀ c ∈ _chunk lst size, 1 ≤ c.length ∧ c.length ≤ size := by
  by_cases h2 : lst = []
  · subst h2
    rw [_chunk_nil]
    simp
  · rw [_chunk_cons lst size h h2]
    intro c hc
    rcases List.mem_cons.mp hc with hc | hc
    · subst hc
      have : 0 < lst.length := List.length_pos.mpr h2
      rw [List.length_take]
      constructor <;> omega
    · exact _chunk_mem_length (lst.drop size) size h c hc
termination_by lst.length
decreasing_by
  rw [List.length_drop]
  have : 0 < lst.length := List.length_pos.mpr h2
  omega

theorem _chunk_getElem_length (lst : List α) (size : Nat) (h : 1 ≤ size) :
    ∀ i, i + 1 < (_chunk lst size).length →
      ∀ c, (_chunk lst size)[i]? = some c → c.length = size := by
  by_cases h2 : lst = []
  · subst h2
    rw [_chunk_nil]
    simp
  · rw [_chunk_cons lst size h h2]
    intro i hi c hc
    match i with
    | 0 =>
      rw [List.getElem?_cons_zero] at hc
      injection hc with hc
      subst hc
      have hrest : _chunk (lst.drop size) size ≠ [] := by
        intro hnil
        rw [hnil] at hi
        simp at hi
      have hdrop : lst.drop size ≠ [] := by
        intro hnil
        rw [hnil, _chunk_nil] at hrest
        exact hrest rfl
      have : 0 < lst.length - size := by
        have := List.length_pos.mpr hdrop
        rw [List.length_drop] at this
        omega
      rw [List.length_take]
      omega
    | i + 1 =>
      rw [List.getElem?_cons_succ] at hc
      simp only [List.length_cons] at hi
      exact _chunk_getElem_length (lst.drop size) size h i (by omega) c hc
termination_by lst.length
decreasing_by
  rw [List.length_drop]
  have : 0 < lst.length := List.length_pos.mpr h2
  omega

/-- Is the status one the 429/503 branch handles? -/
def isThrottleStatus (s : Nat) : Bool := s == 429 || s == 503

/-- Did the attempt yield a 429/503 response? -/
def isThrottle : AttemptOutcome → Bool
  | .response r => isThrottleStatus r.status
  | .transportError _ => false

/-- Did the attempt raise a transport-level error? -/
def isTransport : AttemptOutcome → Bool
  | .transportError _ => true
  | .response _ => false

/-- Is the attempt one the loop retries (transport error or 429/503)? -/
def isRetryable (a : AttemptOutcome) : Bool := isThrottle a || isTransport a

/-- Did the attempt yield a response that `_request_with_backoff` returns
(neither 429/503 nor a `raise_for_status` status)? -/
def isSuccessResponse : AttemptOutcome → Bool
  | .response r => !isThrottleStatus r.status && !isErrorStatus r.status
  | .transportError _ => false

theorem isThrottleStatus_iff (s : Nat) :
    isThrottleStatus s = true ↔ (s = 429 ∨ s = 503) := by
  unfold isThrottleStatus
  simp

theorem backoffGo_attempts_le (R : Nat) (base cap : ℚ) (o : Nat → AttemptOutcome) :
    ∀ (fuel attempt : Nat), (backoffGo R base cap o attempt fuel).attemptsMade ≤ fuel := by
  intro fuel
  induction fuel with
  | zero => intro attempt; simp [backoffGo]
  | succ f ih =>
    intro attempt
    unfold backoffGo
    cases o attempt with
    | transportError msg =>
      by_cases hb : R ≤ attempt
      · simp only [hb, if_true]; omega
      · simp only [hb, if_false]
        have := ih (attempt + 1)
        omega
    | response r =>
      by_cases h1 : r.status = 429 ∨ r.status = 503
      · simp only [h1, if_true]
        have := ih (attempt + 1)
        omega
      · simp only [h1, if_false]
        cases h2 : isErrorStatus r.status
        · rw [if_neg (by simp [h2])]
          exact Nat.succ_le_succ (Nat.zero_le f)
        · rw [if_pos (by simp [h2])]
          by_cases hb : R ≤ attempt
          · simp only [hb, if_true]; omega
          · simp only [hb, if_false]
            have := ih (attempt + 1)
            omega

theorem backoffGo_success (R : Nat) (base cap : ℚ) (o : Nat → AttemptOutcome) :
    ∀ (j fuel attempt : Nat) (r : Response), j < fuel →
      (∀ i, attempt ≤ i → i < attempt + j → isRetryable (o i) = true) →
      attempt + j ≤ R → o (attempt + j) = .response r →
      isSuccessResponse (o (attempt + j)) = true →
      (backoffGo R base cap o attempt fuel).result = .ok r := by
  intro j
  induction j with
  | zero =>
    intro fuel attempt r hj _ _ hr hs
    obtain ⟨f, rfl⟩ : ∃ f, fuel = f + 1 := ⟨fuel - 1, by omega⟩
    rw [Nat.add_zero] at hr hs
    rw [hr] at hs
    unfold isSuccessResponse at hs
    simp only [Bool.and_eq_true, Bool.not_eq_true'] at hs
    have h1 : ¬(r.status = 429 ∨ r.status = 503) := by
      intro hc
      rw [← isThrottleStatus_iff] at hc
      rw [hc] at hs
      exact absurd hs.1 (by simp)
    simp only [backoffGo, hr]
    rw [if_neg h1, if_neg (by simp [hs.2])]
  | succ j ih =>
    intro fuel attempt r hj hpre hle hr hs
    obtain ⟨f, rfl⟩ : ∃ f, fuel = f + 1 := ⟨fuel - 1, by omega⟩
    · have hretry : isRetryable (o attempt) = true := hpre attempt (le_refl _) (by omega)
      have hlt : attempt < R := by omega
      unfold backoffGo
      cases ho : o attempt with
      | transportError msg =>
        have hb : ¬(R ≤ attempt) := by omega
        simp only [hb, if_false]
        have := ih f (attempt + 1) r (by omega)
          (fun i hi1 hi2 => hpre i (by omega) (by omega))
          (by omega) (by rw [show attempt + 1 + j = attempt + (j + 1) by omega]; exact hr)
          (by rw [show attempt + 1 + j = attempt + (j + 1) by omega]; exact hs)
        exact this
      | response r' =>
        rw [ho] at hretry
        unfold isRetryable isThrottle isTransport at hretry
        simp only [Bool.or_false] at hretry
        have h1 : r'.status = 429 ∨ r'.status = 503 := (isThrottleStatus_iff _).mp hretry
        simp only [h1, if_true]
        have := ih f (attempt + 1) r (by omega)
          (fun i hi1 hi2 => hpre i (by omega) (by omega))
          (by omega) (by rw [show attempt + 1 + j = attempt + (j + 1) by omega]; exact hr)
          (by rw [show attempt + 1 + j = attempt + (j + 1) by omega]; exact hs)
        exact this

theorem backoffGo_all_throttle (R : Nat) (base cap : ℚ) (o : Nat → AttemptOutcome)
    (hall : ∀ i, i ≤ R → isThrottle (o i) = true) :
    ∀ (fuel attempt : Nat), attempt + fuel = R + 1 →
      (backoffGo R base cap o attempt fuel).result = .error .runtimeUnreachable := by
  intro fuel
  induction fuel with
  | zero => intro attempt _; rfl
  | succ f ih =>
    intro attempt hinv
    have hle : attempt ≤ R := by omega
    have hth := hall attempt hle
    unfold backoffGo
    cases ho : o attempt with
    | transportError msg =>
      rw [ho] at hth
      exact absurd hth (by simp [isThrottle])
    | response r =>
      rw [ho] at hth
      unfold isThrottle at hth
      have h1 : r.status = 429 ∨ r.status = 503 := (isThrottleStatus_iff _).mp hth
      simp only [h1, if_true]
      exact ih (attempt + 1) (by omega)

theorem backoffGo_last_transport (R : Nat) (base cap : ℚ) (o : Nat → AttemptOutcome)
    (msg : String) (hR : o R = .transportError msg) :
    ∀ (fuel attempt : Nat), attempt + fuel = R + 1 → attempt ≤ R →
      (∀ i, attempt ≤ i → i < R → isRetryable (o i) = true) →
      (backoffGo R base cap o attempt fuel).result = .error (.transport msg) := by
  intro fuel
  induction fuel with
  | zero => intro attempt hinv hle; omega
  | succ f ih =>
    intro attempt hinv hle hpre
    by_cases hend : attempt = R
    · subst hend
      unfold backoffGo
      rw [hR]
      simp
    · have hlt : attempt < R := by omega
      have hretry := hpre attempt (le_refl _) hlt
      unfold backoffGo
      cases ho : o attempt with
      | transportError m =>
        have hb : ¬(R ≤ attempt) := by omega
        simp only [hb, if_false]
        exact ih (attempt + 1) (by omega) (by omega)
          (fun i hi1 hi2 => hpre i (by omega) hi2)
      | response r =>
        rw [ho] at hretry
        unfold isRetryable isThrottle isTransport at hretry
        simp only [Bool.or_false] at hretry
        have h1 : r.status = 429 ∨ r.status = 503 := (isThrottleStatus_iff _).mp hretry
        simp only [h1, if_true]
        exact ih (attempt + 1) (by omega) (by omega)
          (fun i hi1 hi2 => hpre i (by omega) hi2)

/-- The wait the code computes for the retry following attempt `j`, as a
function of that attempt's outcome. -/
def waitOf (base cap : ℚ) (o : Nat → AttemptOutcome) (j : Nat) : ℚ :=
  match o j with
  | .transportError _ => exceptWait base cap j
  | .response r => throttleWait base cap r.retryAfter j

theorem backoffGo_sleeps_getElem (R : Nat) (base cap : ℚ) (o : Nat → AttemptOutcome) :
    ∀ (i fuel attempt : Nat), attempt + fuel = R + 1 → attempt + i < R →
      (∀ k, attempt ≤ k → k ≤ attempt + i → isRetryable (o k) = true) →
      (backoffGo R base cap o attempt fuel).sleeps[i]? =
        some (waitOf base cap o (attempt + i)) := by
  intro i
  induction i with
  | zero =>
    intro fuel attempt hinv hlt hall
    have hretry : isRetryable (o attempt) = true := hall attempt (le_refl _) (by omega)
    obtain ⟨f, rfl⟩ : ∃ f, fuel = f + 1 := ⟨fuel - 1, by omega⟩
    · unfold backoffGo
      cases ho : o attempt with
      | transportError msg =>
        have hb : ¬(R ≤ attempt) := by omega
        simp only [hb, if_false, List.getElem?_cons_zero]
        rw [Nat.add_zero]
        unfold waitOf
        rw [ho]
      | response r =>
        rw [ho] at hretry
        unfold isRetryable isThrottle isTransport at hretry
        simp only [Bool.or_false] at hretry
        have h1 : r.status = 429 ∨ r.status = 503 := (isThrottleStatus_iff _).mp hretry
        simp only [h1, if_true, List.getElem?_cons_zero]
        rw [Nat.add_zero]
        unfold waitOf
        rw [ho]
  | succ i ih =>
    intro fuel attempt hinv hlt hall
    have hretry : isRetryable (o attempt) = true := hall attempt (le_refl _) (by omega)
    obtain ⟨f, rfl⟩ : ∃ f, fuel = f + 1 := ⟨fuel - 1, by omega⟩
    · unfold backoffGo
      cases ho : o attempt with
      | transportError msg =>
        have hb : ¬(R ≤ attempt) := by omega
        simp only [hb, if_false, List.getElem?_cons_succ]
        rw [show attempt + (i + 1) = (attempt + 1) + i by omega]
        exact ih f (attempt + 1) (by omega) (by omega)
          (fun k hk1 hk2 => hall k (by omega) (by omega))
      | response r =>
        rw [ho] at hretry
        unfold isRetryable isThrottle isTransport at hretry
        simp only [Bool.or_false] at hretry
        have h1 : r.status = 429 ∨ r.status = 503 := (isThrottleStatus_iff _).mp hretry
        simp only [h1, if_true, List.getElem?_cons_succ]
        rw [show attempt + (i + 1) = (attempt + 1) + i by omega]
        exact ih f (attempt + 1) (by omega) (by omega)
          (fun k hk1 hk2 => hall k (by omega) (by omega))

theorem searchGo_requests_of_full (pp : Nat) (hpp : 0 < pp) (m : Nat) :
    ∀ (rest : List (List SearchItem)) (acc : List String) (reqs : Nat),
      (∀ p ∈ rest.take (ceilDiv (m - acc.length) pp),
        (p.filterMap SearchItem.id).length = pp) →
      ceilDiv (m - acc.length) pp ≤ rest.length →
      (searchGo (m : Int) rest acc reqs).2 = reqs + ceilDiv (m - acc.length) pp := by
  intro rest
  induction rest with
  | nil =>
    intro acc reqs _ hlen
    simp only [List.length_nil, Nat.le_zero] at hlen
    have hm : m ≤ acc.length := by
      by_contra hc
      have := ceilDiv_pos (m - acc.length) pp (by omega) hpp
      omega
    unfold searchGo
    rw [if_neg (by exact_mod_cast not_lt.mpr hm)]
    omega
  | cons data rest' ih =>
    intro acc reqs hfull hlen
    by_cases hg : acc.length < m
    · have hneed : 0 < m - acc.length := by omega
      have hpos : 0 < ceilDiv (m - acc.length) pp := ceilDiv_pos _ _ hneed hpp
      have hrec : ceilDiv (m - acc.length) pp = ceilDiv (m - acc.length - pp) pp + 1 :=
        ceilDiv_sub_rec _ _ hneed hpp
      have hdata : (data.filterMap SearchItem.id).length = pp := by
        apply hfull data
        rw [hrec, List.take_succ_cons]
        exact List.mem_cons_self _ _
      have hne : ¬data.isEmpty := by
        intro hc
        rw [List.isEmpty_iff.mp hc] at hdata
        simp at hdata
        omega
      unfold searchGo
      rw [if_pos (by exact_mod_cast hg)]
      rw [if_neg (by simp [hne])]
      have hacc : (acc ++ data.filterMap SearchItem.id).length = acc.length + pp := by
        rw [List.length_append, hdata]
      have hsub : m - (acc.length + pp) = m - acc.length - pp := by omega
      rw [ih (acc ++ data.filterMap SearchItem.id) (reqs + 1)
        (by
          intro p hp
          rw [hacc, hsub] at hp
          apply hfull p
          rw [hrec, List.take_succ_cons]
          exact List.mem_cons_of_mem _ hp)
        (by
          rw [hacc, hsub]
          simp only [List.length_cons] at hlen
          omega)]
      rw [hacc, hsub]
      omega
    · unfold searchGo
      rw [if_neg (by exact_mod_cast hg)]
      have : m - acc.length = 0 := by omega
      rw [this, ceilDiv_zero_left]
      simp

theorem searchGo_requests_le_of_empty_page (m : Int) :
    ∀ (rest : List (List SearchItem)) (acc : List String) (reqs k : Nat),
      rest[k]? = some [] →
      (searchGo m rest acc reqs).2 ≤ reqs + k + 1 := by
  intro rest
  induction rest with
  | nil => intro acc reqs k hk; simp at hk
  | cons data rest' ih =>
    intro acc reqs k hk
    unfold searchGo
    by_cases hg : (acc.length : Int) < m
    · rw [if_pos hg]
      by_cases hd : data.isEmpty
      · rw [if_pos hd]
        omega
      · rw [if_neg hd]
        match k with
        | 0 =>
          rw [List.getElem?_cons_zero] at hk
          injection hk with hk
          rw [hk] at hd
          exact absurd rfl hd
        | k + 1 =>
          rw [List.getElem?_cons_succ] at hk
          have := ih (acc ++ data.filterMap SearchItem.id) (reqs + 1) k hk
          omega
    · rw [if_neg hg]
      omega

theorem fetchDetailsGo_spec (api : List String → List String → List α)
    (fields_eff : List String) (bs : List (List String)) :
    fetchDetailsGo api fields_eff bs =
      ((bs.map (fun b => api b fields_eff)).flatten, bs.length) := by
  induction bs with
  | nil => rfl
  | cons b bs ih =>
    unfold fetchDetailsGo
    rw [ih]
    simp

theorem _chunk_length (lst : List α) (size : Nat) (h : 1 ≤ size) :
    (_chunk lst size).length = ceilDiv lst.length size := by
  by_cases h2 : lst = []
  · subst h2
    rw [_chunk_nil]
    simp [ceilDiv_zero_left]
  · rw [_chunk_cons lst size h h2]
    have hlen : 0 < lst.length := List.length_pos.mpr h2
    simp only [List.length_cons]
    rw [_chunk_length (lst.drop size) size h, List.length_drop]
    rw [ceilDiv_sub_rec lst.length size hlen (by omega)]
termination_by lst.length
decreasing_by
  rw [List.length_drop]
  have : 0 < lst.length := List.length_pos.mpr h2
  omega

end DataFetcher

/-! ## The claims -/

open DataFetcher Utils

/-- C1. Claimed: a response whose status is neither 429/503 nor 2xx makes
`_request_with_backoff` propagate an `HTTPError` immediately on the first
attempt, with no retry and no sleep. The code does NOT do this (contrary
to its own docstring): `resp.raise_for_status()` raises inside the `try`
block and its `HTTPError` is caught by `except requests.RequestException`,
so a constant-404 API is retried like a transport failure. With the
default `MAX_RETRIES = 4`, five requests are issued and four backoff
sleeps are performed before the `HTTPError` is finally re-raised. -/
theorem C1_http_error_is_retried :
    (requestWithBackoff MAX_RETRIES BACKOFF_BASE BACKOFF_CAP
        (fun _ => .response ⟨404, .absent, "not found"⟩)).result
      = .error (.httpError 404 "not found")
    ∧ (requestWithBackoff MAX_RETRIES BACKOFF_BASE BACKOFF_CAP
        (fun _ => .response ⟨404, .absent, "not found"⟩)).attemptsMade = 5
    ∧ (requestWithBackoff MAX_RETRIES BACKOFF_BASE BACKOFF_CAP
        (fun _ => .response ⟨404, .absent, "not found"⟩)).sleeps.length = 4 :=
  ⟨rfl, rfl, rfl⟩

/-- C2, counterexample: when every permitted attempt yields a retryable
429, the loop falls through and the code raises the
`RuntimeError("Unreachable...")` sentinel — not the underlying failure
(there is no pending exception; the last 429 response is simply dropped). -/
theorem C2_counterexample :
    (requestWithBackoff MAX_RETRIES BACKOFF_BASE BACKOFF_CAP
        (fun _ => .response ⟨429, .absent, "rate limited"⟩)).result
      = .error .runtimeUnreachable
    ∧ (requestWithBackoff MAX_RETRIES BACKOFF_BASE BACKOFF_CAP
        (fun _ => .response ⟨429, .absent, "rate limited"⟩)).result
      ≠ .error (.httpError 429 "rate limited")
    ∧ (requestWithBackoff MAX_RETRIES BACKOFF_BASE BACKOFF_CAP
        (fun _ => .response ⟨429, .absent, "rate limited"⟩)).attemptsMade = 5 :=
  ⟨rfl, by simp [requestWithBackoff, backoffGo, throttleWait], rfl⟩

/-- C2, amended: `_request_with_backoff` makes at most `R + 1` tries; a
successful response within the budget is returned with no error; when the
final permitted attempt raises a transport error it is re-raised; but when
every permitted attempt yields a retryable 429/503 status the sentinel
`RuntimeError` is raised after the loop instead of the underlying failure. -/
theorem C2_retry_budget (R : Nat) (base cap : ℚ) (o : Nat → AttemptOutcome) :
    (requestWithBackoff R base cap o).attemptsMade ≤ R + 1
    ∧ (∀ j r, j ≤ R → (∀ i, i < j → isRetryable (o i) = true) →
        o j = .response r → isSuccessResponse (o j) = true →
        (requestWithBackoff R base cap o).result = .ok r)
    ∧ (∀ msg, (∀ i, i < R → isRetryable (o i) = true) → o R = .transportError msg →
        (requestWithBackoff R base cap o).result = .error (.transport msg))
    ∧ ((∀ i, i ≤ R → isThrottle (o i) = true) →
        (requestWithBackoff R base cap o).result = .error .runtimeUnreachable) := by
  refine ⟨backoffGo_attempts_le R base cap o (R + 1) 0, ?_, ?_, ?_⟩
  · intro j r hj hpre hr hs
    exact backoffGo_success R base cap o j (R + 1) 0 r (by omega)
      (fun i _ h2 => hpre i (by omega))
      (by omega)
      (by rw [Nat.zero_add]; exact hr)
      (by rw [Nat.zero_add]; exact hs)
  · intro msg hpre hR
    exact backoffGo_last_transport R base cap o msg hR (R + 1) 0 (by omega) (by omega)
      (fun i _ h2 => hpre i h2)
  · intro hall
    exact backoffGo_all_throttle R base cap o hall (R + 1) 0 (by omega)

/-- Witness for C2: with `R = 1`, a 503 then a 200 returns the 200
response within the budget; and with both attempts transport failures, the
second failure is re-raised; with both attempts 429, the sentinel fires. -/
theorem C2_retry_budget_witness :
    (requestWithBackoff 1 BACKOFF_BASE BACKOFF_CAP
        (fun i => if i = 0 then .response ⟨503, .absent, "u"⟩
                  else .response ⟨200, .absent, "ok"⟩)).result
      = .ok ⟨200, .absent, "ok"⟩
    ∧ (requestWithBackoff 1 BACKOFF_BASE BACKOFF_CAP
        (fun _ => .transportError "timeout")).result = .error (.transport "timeout")
    ∧ (requestWithBackoff 1 BACKOFF_BASE BACKOFF_CAP
        (fun _ => .response ⟨429, .absent, "r"⟩)).result = .error .runtimeUnreachable := by
  refine ⟨?_, ?_, ?_⟩
  · exact (C2_retry_budget 1 BACKOFF_BASE BACKOFF_CAP _).2.1 1 ⟨200, .absent, "ok"⟩
      (by decide) (by decide) rfl (by decide)
  · exact (C2_retry_budget 1 BACKOFF_BASE BACKOFF_CAP _).2.2.1 "timeout" (by decide) rfl
  · exact (C2_retry_budget 1 BACKOFF_BASE BACKOFF_CAP _).2.2.2 (by decide)

/-- C3: the wait computed before the retry that follows attempt `i`
(within a run whose attempts so far were all retryable) follows the
priority order: a parseable `Retry-After` on a 429/503 gives
`min(header, cap)`; a 429/503 without a usable header gives
`min(base^i * 2, cap)` with `i` the zero-indexed attempt; a transport
failure gives `min(base^(i+1) * 2, cap)`. -/
theorem C3_wait_priority (R : Nat) (base cap : ℚ) (o : Nat → AttemptOutcome)
    (i : Nat) (hi : i < R) (hall : ∀ k, k ≤ i → isRetryable (o k) = true) :
    (requestWithBackoff R base cap o).sleeps[i]? = some (
      match o i with
      | .transportError _ => min ((base ^ (i + 1)) * 2) cap
      | .response r =>
        match r.retryAfter with
        | .value q => min q cap
        | .unparsable => min ((base ^ i) * 2) cap
        | .absent => min ((base ^ i) * 2) cap) := by
  have h := backoffGo_sleeps_getElem R base cap o i (R + 1) 0 (by omega) (by omega)
    (fun k _ h2 => hall k (by omega))
  rw [Nat.zero_add] at h
  rw [show (requestWithBackoff R base cap o) = backoffGo R base cap o 0 (R + 1) from rfl, h]
  unfold waitOf exceptWait throttleWait
  cases o i with
  | transportError msg => rfl
  | response r => cases r.retryAfter <;> rfl

/-- Witness for C3: a 429 carrying `Retry-After: 5` waits `min(5, 8) = 5`;
the transport failure at attempt 1 waits `min(0.8^2 * 2, 8) = 32/25`. -/
theorem C3_wait_priority_witness :
    (requestWithBackoff 2 BACKOFF_BASE BACKOFF_CAP
        (fun k => if k = 0 then .response ⟨429, .value 5, ""⟩
                  else .transportError "boom")).sleeps[0]? = some 5
    ∧ (requestWithBackoff 2 BACKOFF_BASE BACKOFF_CAP
        (fun k => if k = 0 then .response ⟨429, .value 5, ""⟩
                  else .transportError "boom")).sleeps[1]? = some (32 / 25) := by
  constructor
  · have h := C3_wait_priority 2 BACKOFF_BASE BACKOFF_CAP
      (fun k => if k = 0 then .response ⟨429, .value 5, ""⟩ else .transportError "boom")
      0 (by decide) (by decide)
    rw [h]
    norm_num [BACKOFF_CAP]
  · have h := C3_wait_priority 2 BACKOFF_BASE BACKOFF_CAP
      (fun k => if k = 0 then .response ⟨429, .value 5, ""⟩ else .transportError "boom")
      1 (by decide) (by decide)
    rw [h]
    norm_num [BACKOFF_BASE, BACKOFF_CAP]

/-- C4: for every oracle, term and `maxItems >= 0`, `_search_ids` returns
at most `maxItems` ids. -/
theorem C4_searchIds_length_le (oracle : String → Int → List (List SearchItem))
    (term : String) (m : Int) (h : 0 ≤ m) :
    ((searchIds oracle term m).length : Int) ≤ m := by
  unfold searchIds pySliceTo
  rw [if_pos h]
  have h1 : ((searchIdsRun oracle term m).1.take m.toNat).length ≤ m.toNat := by
    rw [List.length_take]
    exact min_le_left _ _
  calc (((searchIdsRun oracle term m).1.take m.toNat).length : Int)
      ≤ (m.toNat : Int) := by exact_mod_cast h1
    _ = m := Int.toNat_of_nonneg h

/-- Witness for C4: three one-id pages and `maxItems = 2` yield at most
two ids. -/
theorem C4_searchIds_length_le_witness :
    (0 : Int) ≤ 2
    ∧ ((searchIds (fun _ _ => [[⟨some "a"⟩], [⟨some "b"⟩], [⟨some "c"⟩]])
        "t" 2).length : Int) ≤ 2 :=
  ⟨by decide,
   C4_searchIds_length_le (fun _ _ => [[⟨some "a"⟩], [⟨some "b"⟩], [⟨some "c"⟩]])
     "t" 2 (by decide)⟩

/-- C5, counterexample: the claim's premise ("the API never returns an
empty data page before `maxItems` identifiers are accumulated") is not
enough for the exact request count. With `maxItems = 2` (so
`pageSize = 2`) and an API that returns non-empty pages of a single id
each, no empty page is ever returned, yet two requests are issued while
`ceil(2 / 2) = 1`. -/
theorem C5_counterexample :
    searchRequests (fun _ _ => [[⟨some "a"⟩], [⟨some "b"⟩], [⟨some "c"⟩]]) "term" 2 = 2
    ∧ ceilDiv 2 ((per_page 2).toNat) = 1 := by
  constructor
  · decide
  · decide

/-- C5, amended: with `pageSize = clamp(maxItems, 1, 100)`, `_search_ids`
performs exactly `ceil(maxItems / pageSize)` page requests when each of
the first `ceil(maxItems / pageSize)` pages the API returns carries
exactly `pageSize` extracted identifiers; and if the API returns an empty
data page on request `k`, no request beyond `k` is issued. -/
theorem C5_pagination (oracle : String → Int → List (List SearchItem))
    (term : String) (m : Nat) :
    ((∀ p ∈ (oracle term (per_page (m : Int))).take (ceilDiv m (per_page (m : Int)).toNat),
        (p.filterMap SearchItem.id).length = (per_page (m : Int)).toNat) →
      ceilDiv m (per_page (m : Int)).toNat ≤ (oracle term (per_page (m : Int))).length →
      searchRequests oracle term (m : Int) = ceilDiv m (per_page (m : Int)).toNat)
    ∧ (∀ k, (oracle term (per_page (m : Int)))[k]? = some [] →
        searchRequests oracle term (m : Int) ≤ k + 1) := by
  have hpp : 0 < (per_page (m : Int)).toNat := by unfold per_page; omega
  constructor
  · intro hfull hlen
    unfold searchRequests searchIdsRun
    have h := searchGo_requests_of_full (per_page (m : Int)).toNat hpp m
      (oracle term (per_page (m : Int))) [] 0
      (by simpa using hfull) (by simpa using hlen)
    simpa using h
  · intro k hk
    unfold searchRequests searchIdsRun
    have h := searchGo_requests_le_of_empty_page (m : Int)
      (oracle term (per_page (m : Int))) [] 0 k hk
    omega

/-- Witness for C5: one full page of three ids with `maxItems = 3`
(`pageSize = 3`) takes exactly `ceil(3/3) = 1` request, and an API whose
first page is empty is not asked for a second one. -/
theorem C5_pagination_witness :
    searchRequests (fun _ _ => [[⟨some "a"⟩, ⟨some "b"⟩, ⟨some "c"⟩]]) "t" 3
      = ceilDiv 3 ((per_page 3).toNat)
    ∧ searchRequests (fun _ _ => [[], [⟨some "a"⟩]]) "u" 5 ≤ 1 := by
  constructor
  · exact (C5_pagination (fun _ _ => [[⟨some "a"⟩, ⟨some "b"⟩, ⟨some "c"⟩]]) "t" 3).1
      (by decide) (by decide)
  · exact (C5_pagination (fun _ _ => [[], [⟨some "a"⟩]]) "u" 5).2 0 (by decide)

/-- C6: `_fetch_details` on `n` ids makes `ceil(n / 50)` requests, each
batch has between 1 and 50 ids, the output is the concatenation of the
per-chunk data lists in chunk order (and the chunks concatenate back to
the input, so input order is preserved across chunk boundaries), and an
empty id list short-circuits to the empty result with zero requests. -/
theorem C6_fetchDetails (api : List String → List String → List α)
    (ids fields : List String) :
    (fetchDetailsRun api ids fields).2 = ceilDiv ids.length 50
    ∧ (∀ b ∈ _chunk ids 50, 1 ≤ b.length ∧ b.length ≤ 50)
    ∧ (fetchDetailsRun api ids fields).1 =
        ((_chunk ids 50).map
          (fun b => api b (if fields.isEmpty then defaultFields else fields))).flatten
    ∧ (_chunk ids 50).flatten = ids
    ∧ (ids = [] → fetchDetailsRun api ids fields = ([], 0)) := by
  by_cases hids : ids.isEmpty
  · have hnil : ids = [] := List.isEmpty_iff.mp hids
    subst hnil
    refine ⟨?_, ?_, ?_, ?_, fun _ => ?_⟩
    · simp [fetchDetailsRun, ceilDiv_zero_left]
    · rw [_chunk_nil]; simp
    · rw [_chunk_nil]; simp [fetchDetailsRun]
    · rw [_chunk_nil]; rfl
    · simp [fetchDetailsRun]
  · have hchunks := fetchDetailsGo_spec api
      (if fields.isEmpty then defaultFields else fields) (_chunk ids 50)
    refine ⟨?_, _chunk_mem_length ids 50 (by omega), ?_,
      _chunk_flatten ids 50 (by omega), fun hnil => absurd hnil (by simpa using hids)⟩
    · unfold fetchDetailsRun
      rw [if_neg hids, hchunks]
      exact _chunk_length ids 50 (by omega)
    · unfold fetchDetailsRun
      rw [if_neg hids, hchunks]

/-- Witness for C6: five ids in chunks of 50 give one request whose data
comes back unchanged, and the empty id list short-circuits. -/
theorem C6_fetchDetails_witness :
    (fetchDetailsRun (fun b _ => b) ["1", "2", "3", "4", "5"] []).2 = ceilDiv 5 50
    ∧ fetchDetailsRun (fun b _ => b) ([] : List String) ["id"] = ([], 0) :=
  ⟨(C6_fetchDetails (fun b _ => b) ["1", "2", "3", "4", "5"] []).1,
   (C6_fetchDetails (fun b _ => b) ([] : List String) ["id"]).2.2.2.2 rfl⟩

/-- C10: for every list and chunk size >= 1, the chunks concatenate back
to the input, every chunk has between 1 and `size` elements, and every
chunk except possibly the last has exactly `size` elements. -/
theorem C10_chunk_partition (lst : List α) (size : Nat) (h : 1 ≤ size) :
    (_chunk lst size).flatten = lst
    ∧ (∀ c ∈ _chunk lst size, 1 ≤ c.length ∧ c.length ≤ size)
    ∧ (∀ i, i + 1 < (_chunk lst size).length →
        ∀ c, (_chunk lst size)[i]? = some c → c.length = size) :=
  ⟨_chunk_flatten lst size h, _chunk_mem_length lst size h,
   _chunk_getElem_length lst size h⟩

/-- Witness for C10: chunking five letters by two concatenates back to
the input. -/
theorem C10_chunk_partition_witness :
    1 ≤ 2 ∧ (_chunk ["a", "b", "c", "d", "e"] 2).flatten = ["a", "b", "c", "d", "e"] :=
  ⟨by decide, (C10_chunk_partition ["a", "b", "c", "d", "e"] 2 (by decide)).1⟩

/-- C7: `fetch_report_data` normalizes a missing `name`/`search`/`fields`/
`max_items` to `"report"`, `""`, the four default fields and `25`
(echoing present truthy values unchanged), its `items` are the result of
feeding the searcher's ids into the batch fetcher with the effective
search, `max_items` and fields, and `count` always equals the length of
`items`. -/
theorem C7_fetch_report_data (oracle : String → Int → List (List SearchItem))
    (api : List String → List String → List α) (r : ReportDict) :
    (fetch_report_data oracle api r).count = (fetch_report_data oracle api r).items.length
    ∧ (r.name = none → (fetch_report_data oracle api r).report.name = "report")
    ∧ (r.search = none → (fetch_report_data oracle api r).report.search = "")
    ∧ (r.fields = none → (fetch_report_data oracle api r).report.fields = defaultFields)
    ∧ (r.max_items = none → (fetch_report_data oracle api r).report.max_items = 25)
    ∧ (∀ s, r.name = some s → s ≠ "" → (fetch_report_data oracle api r).report.name = s)
    ∧ (∀ s, r.search = some s → s ≠ "" → (fetch_report_data oracle api r).report.search = s)
    ∧ (∀ l, r.fields = some l → l ≠ [] → (fetch_report_data oracle api r).report.fields = l)
    ∧ (∀ i, r.max_items = some i → i ≠ 0 →
        (fetch_report_data oracle api r).report.max_items = i)
    ∧ (fetch_report_data oracle api r).items =
        (fetchDetailsRun api
          (searchIds oracle (fetch_report_data oracle api r).report.search
            (fetch_report_data oracle api r).report.max_items)
          (fetch_report_data oracle api r).report.fields).1 := by
  refine ⟨rfl, ?_, ?_, ?_, ?_, ?_, ?_, ?_, ?_, rfl⟩
  · intro h; simp [fetch_report_data, orDefaultStr, h]
  · intro h; simp [fetch_report_data, orDefaultStr, h]
  · intro h; simp [fetch_report_data, orDefaultList, h]
  · intro h; simp [fetch_report_data, orDefaultInt, h]
  · intro s hs hne; simp [fetch_report_data, orDefaultStr, hs, hne]
  · intro s hs hne; simp [fetch_report_data, orDefaultStr, hs, hne]
  · intro l hl hne; simp [fetch_report_data, orDefaultList, hl,
      List.isEmpty_iff, hne]
  · intro i hi hne; simp [fetch_report_data, orDefaultInt, hi, hne]

/-- Witness for C7: the all-absent dict gets the documented defaults and
`count = len(items)`. -/
theorem C7_fetch_report_data_witness :
    (fetch_report_data (fun _ _ => [[⟨some "1"⟩]]) (fun b _ => b) {}).report.name = "report"
    ∧ (fetch_report_data (fun _ _ => [[⟨some "1"⟩]]) (fun b _ => b) {}).report.max_items = 25
    ∧ (fetch_report_data (fun _ _ => [[⟨some "1"⟩]]) (fun b _ => b) {}).count
      = (fetch_report_data (fun _ _ => [[⟨some "1"⟩]]) (fun b _ => b) {}).items.length := by
  obtain ⟨h1, h2, _, _, h5, _⟩ :=
    C7_fetch_report_data (fun _ _ => [[⟨some "1"⟩]]) (fun b _ => b) {}
  exact ⟨h2 rfl, h5 rfl, h1⟩

/-- C8: a spec field that is present but falsy is replaced by its default
exactly as if it were absent: `max_items: 0` becomes 25 rather than
producing an empty report, `name: ""` becomes `"report"`, and
`fields: []` becomes the default four-field set. -/
theorem C8_falsy_defaults (oracle : String → Int → List (List SearchItem))
    (api : List String → List String → List α) (search? : Option String) :
    fetch_report_data oracle api
        { name := some "", search := search?, fields := some [], max_items := some 0 }
      = fetch_report_data oracle api
        { name := none, search := search?, fields := none, max_items := none }
    ∧ (fetch_report_data oracle api
        { name := some "", search := search?, fields := some [],
          max_items := some 0 }).report.name = "report"
    ∧ (fetch_report_data oracle api
        { name := some "", search := search?, fields := some [],
          max_items := some 0 }).report.fields = defaultFields
    ∧ (fetch_report_data oracle api
        { name := some "", search := search?, fields := some [],
          max_items := some 0 }).report.max_items = 25 :=
  ⟨rfl, rfl, rfl, rfl⟩

/-- C9: `bounded_sleep` never raises for any duration: any exception of
the underlying `time.sleep` is swallowed, and a negative or NaN duration
is clamped to zero before the sleep. -/
theorem C9_bounded_sleep (sleepImpl : ℚ → Except String Unit) (s : PyFloat) :
    bounded_sleep sleepImpl s = .ok ()
    ∧ ((s = .nan ∨ ∃ q, s = .val q ∧ q ≤ 0) → pyMaxZero s = 0) := by
  constructor
  · unfold bounded_sleep
    cases h : sleepImpl (pyMaxZero s) <;> simp
  · rintro (rfl | ⟨q, rfl, hq⟩)
    · rfl
    · show (if 0 < q then q else 0 : ℚ) = 0
      rw [if_neg (not_lt.mpr hq)]

/-- Witness for C9: a raising sleep and a negative duration still return
without error, with the duration clamped to zero. -/
theorem C9_bounded_sleep_witness :
    bounded_sleep (fun _ => .error "interrupted") (.val (-3)) = .ok ()
    ∧ pyMaxZero (.val (-3)) = 0 :=
  ⟨(C9_bounded_sleep (fun _ => .error "interrupted") (.val (-3))).1,
   (C9_bounded_sleep (fun _ => .error "interrupted") (.val (-3))).2
     (Or.inr ⟨-3, rfl, by norm_num⟩)⟩
